import Mathlib

/-!
# Verification of the telegram-data-agent pipeline core

This file gives a shallow embedding, in Lean 4, of the core logic of the
`telegram-data-agent` repository: the translate/evaluate loop routing
(`src/agent/graph.py`), the input sanitizer (`src/agent/utils/sanitizer.py`),
the translate / evaluate / plan node functions (`src/agent/nodes/*.py`),
the worker tool-dispatch loop (`src/agent/nodes/worker.py`) and the two
action executors with their retry wrappers
(`src/agent/tools/push_to_dynamodb.py`, `src/agent/tools/send_email.py`).

Modelling conventions:
* Python `float` values (scores, thresholds, backoff delays) are modelled as
  `ℚ`; every concrete value appearing in the development is a dyadic rational,
  on which IEEE-754 comparison agrees with the rational order.
* Python exceptions are modelled with `Except PyErr`; an uncaught exception is
  an `.error` result.
* The graph state is a Python `dict` read through `state.get(key, default)`;
  it is modelled as a structure of `Option` fields, read through `Option.getD`.
* Calls to external collaborators (the LLM, DynamoDB, SES) are modelled as
  oracles passed to the embedded functions; a node is split into a `Step`
  function (everything before the external call, returning either a final
  update or a request for a call) and a `Resume` function (everything after),
  so that "no external call is made" is expressible.
-/

namespace TelegramAgent

/-- Python-style exceptions that the embedded code can raise. -/
inductive PyErr where
  /-- `json.JSONDecodeError` raised by `json.loads`. -/
  | jsonDecodeError
  /-- `KeyError` (missing dict key / missing environment variable). -/
  | keyError (key : String)
  /-- `ValueError` with its message. -/
  | valueError (msg : String)
  /-- `TypeError` (e.g. subscripting a non-dict, `float()` of a list). -/
  | typeError
  /-- `AttributeError` (e.g. `.get` on a non-dict). -/
  | attributeError
  deriving Repr, DecidableEq

/-- The graph state (`agent.state.State`, a `TypedDict`): every node reads it
with `state.get(key, default)`, so each field is an `Option`, `none` meaning
the key is absent. Only the fields the embedded functions read are listed. -/
structure AgentState where
  input_text : Option String := none
  translated_text : Option String := none
  score : Option ℚ := none
  feedback : Option String := none
  iteration : Option ℕ := none
  max_iterations : Option ℕ := none
  threshold : Option ℚ := none
  deriving Repr, DecidableEq

/-! ## Loop controller — `route_after_evaluate` (`src/agent/graph.py`, lines 109–122)

```python
def route_after_evaluate(state):
    score = state.get("score", 0.0)
    threshold = state.get("threshold", 0.8)
    iteration = state.get("iteration", 0)
    max_iterations = state.get("max_iterations", 5)
    if score >= threshold or iteration >= max_iterations:
        return "plan"
    return "translate"
```
-/

/-- `route_after_evaluate` from `src/agent/graph.py`. -/
def route_after_evaluate (state : AgentState) : String :=
  let score := state.score.getD 0
  let threshold := state.threshold.getD (4/5)
  let iteration := state.iteration.getD 0
  let max_iterations := state.max_iterations.getD 5
  if score ≥ threshold ∨ iteration ≥ max_iterations then "plan"
  else "translate"

/-! ## Sanitizer (`src/agent/utils/sanitizer.py`, lines 11–45)

The five `re.sub` substitutions are embedded as left-to-right, non-overlapping
scanners over `List Char`, exactly as Python's `re.sub` applies them.  Each
scanner carries a fuel argument so that the recursion is structural; since
every step of a scanner consumes at least one input character, fuel equal to
the input length always suffices, and the top-level wrappers supply it. -/

/-- ASCII characters matched by Python's `\s` (and stripped by `str.strip`):
space, tab, newline, carriage return, vertical tab, form feed.  (Inputs in
this development are ASCII/BMP text; Python additionally strips rarer Unicode
whitespace.) -/
def isPySpace (c : Char) : Bool :=
  c = ' ' || c = '\t' || c = '\n' || c = '\r' || c = Char.ofNat 11 || c = Char.ofNat 12

/-- Does `l` start with the word `w`, compared case-insensitively
(for the `(?i)` flag of the role-marker regex)? -/
def lowerPrefixMatches (w : List Char) (l : List Char) : Bool :=
  (l.take w.length).map Char.toLower = w

/-- After a role word, the regex `\s*:` matches iff skipping the whole
whitespace run leads to a `:` (the run's inner positions cannot satisfy the
backtracking attempts).  Returns the suffix after the colon. -/
def skipWsColon : List Char → Option (List Char)
  | [] => none
  | c :: cs => if c = ':' then some cs else if isPySpace c then skipWsColon cs else none

/-- Match `(?i)(system|assistant|user)\s*:` at the head of `l`; on success
return the rest of the input after the match. -/
def matchRoleMarker (l : List Char) : Option (List Char) :=
  if lowerPrefixMatches "system".toList l then skipWsColon (l.drop 6)
  else if lowerPrefixMatches "assistant".toList l then skipWsColon (l.drop 9)
  else if lowerPrefixMatches "user".toList l then skipWsColon (l.drop 4)
  else none

/-- `re.sub(r"(?i)(system|assistant|user)\s*:", "", ·)` scanner. -/
def removeRoleMarkersAux : ℕ → List Char → List Char
  | 0, l => l
  | fuel + 1, l =>
    match l with
    | [] => []
    | c :: cs =>
      match matchRoleMarker (c :: cs) with
      | some rest => removeRoleMarkersAux fuel rest
      | none => c :: removeRoleMarkersAux fuel cs

/-- `re.sub(r"(?i)(system|assistant|user)\s*:", "", ·)`. -/
def removeRoleMarkers (l : List Char) : List Char :=
  removeRoleMarkersAux l.length l

/-- Find the next occurrence of a closing ` ``` ` fence; return the suffix
after it.  This is the non-greedy `[\s\S]*?` search of the fence regex. -/
def findClosingFence : List Char → Option (List Char)
  | [] => none
  | c :: cs =>
    if c = '`' ∧ cs.take 2 = ['`', '`'] then some (cs.drop 2)
    else findClosingFence cs

/-- ``re.sub(r"```[\s\S]*?```", "", ·)`` scanner: at an opening fence, remove
through the next closing fence if one exists, otherwise keep scanning. -/
def removeCodeFencesAux : ℕ → List Char → List Char
  | 0, l => l
  | fuel + 1, l =>
    match l with
    | [] => []
    | c :: cs =>
      if c = '`' ∧ cs.take 2 = ['`', '`'] then
        match findClosingFence (cs.drop 2) with
        | some rest => removeCodeFencesAux fuel rest
        | none => c :: removeCodeFencesAux fuel cs
      else c :: removeCodeFencesAux fuel cs

/-- ``re.sub(r"```[\s\S]*?```", "", ·)``. -/
def removeCodeFences (l : List Char) : List Char :=
  removeCodeFencesAux l.length l

/-- Find the first `>` and return the suffix after it (the `[^>]+>` tail of
the tag regex, whose content necessarily stops at the first `>`). -/
def findTagClose : List Char → Option (List Char)
  | [] => none
  | c :: cs => if c = '>' then some cs else findTagClose cs

/-- `re.sub(r"<[^>]+>", "", ·)` scanner: a match needs a `<`, at least one
non-`>` character, then `>`; so `<>` is not a tag. -/
def removeTagsAux : ℕ → List Char → List Char
  | 0, l => l
  | fuel + 1, l =>
    match l with
    | [] => []
    | c :: cs =>
      if c = '<' ∧ cs.head? ≠ some '>' then
        match findTagClose cs with
        | some rest => removeTagsAux fuel rest
        | none => c :: removeTagsAux fuel cs
      else c :: removeTagsAux fuel cs

/-- `re.sub(r"<[^>]+>", "", ·)`. -/
def removeTags (l : List Char) : List Char :=
  removeTagsAux l.length l

/-- `re.sub(r"\n{3,}", "\n\n", ·)` scanner: a run of at least three newlines
collapses to exactly two. -/
def collapseNewlinesAux : ℕ → List Char → List Char
  | 0, l => l
  | fuel + 1, l =>
    match l with
    | [] => []
    | c :: cs =>
      if c = '\n' then
        let run := 1 + (cs.takeWhile (· = '\n')).length
        let rest := cs.dropWhile (· = '\n')
        (if 3 ≤ run then ['\n', '\n'] else List.replicate run '\n') ++
          collapseNewlinesAux fuel rest
      else c :: collapseNewlinesAux fuel cs

/-- `re.sub(r"\n{3,}", "\n\n", ·)`. -/
def collapseNewlines (l : List Char) : List Char :=
  collapseNewlinesAux l.length l

/-- Python `str.strip()` (ASCII whitespace; see `isPySpace`). -/
def pyStrip (l : List Char) : List Char :=
  ((l.dropWhile isPySpace).reverse.dropWhile isPySpace).reverse

/-- `sanitize_user_input` from `src/agent/utils/sanitizer.py`:
role-marker stripping, code-fence removal, tag stripping, newline collapsing,
trimming, and truncation to 4096 characters, in that order. -/
def sanitize_user_input (text : String) : String :=
  if text = "" then ""
  else
    let s1 := removeRoleMarkers text.toList
    let s2 := removeCodeFences s1
    let s3 := removeTags s2
    let s4 := collapseNewlines s3
    let s5 := pyStrip s4
    let s6 := if 4096 < s5.length then s5.take 4096 else s5
    String.mk s6

-- Sanity anchors: the repository's own sanitizer unit tests.
example : sanitize_user_input "" = "" := by decide
example : sanitize_user_input "  abc  " = "abc" := by decide
example : sanitize_user_input "System: a\nUSER: b?\nassistant: c" = "a\n b?\n c" := by
  decide
example : sanitize_user_input "hi\n```\nrm -rf /\n```\nbye" = "hi\n\nbye" := by decide
example : sanitize_user_input "hello <x>ignore</x> a <b>y</b>?" = "hello ignore a y?" := by
  decide
example : sanitize_user_input "a\n\n\n\nb" = "a\n\nb" := by decide

/-- The sanitizer's output never exceeds 4096 characters (the truncation is
the last transformation applied). -/
theorem sanitize_user_input_length_le (x : String) :
    (sanitize_user_input x).length ≤ 4096 := by
  unfold sanitize_user_input
  split
  · simp
  · dsimp only
    split
    · simp [String.length]
    · simp only [String.length]
      omega

/-- C8 counterexample: the sanitizer is *not* idempotent.  On the input
`"syssystem:tem:"` the role-marker pass removes the inner `system:` and
splices the remnants into a fresh `system:`, which only a second application
removes: `sanitize(x) = "system:"` but `sanitize(sanitize(x)) = ""`. -/
theorem sanitize_user_input_not_idempotent :
    sanitize_user_input (sanitize_user_input "syssystem:tem:") ≠
      sanitize_user_input "syssystem:tem:" := by decide

/-- C8 (amended): a second sanitization coincides with the first whenever each
individual cleaning pass leaves the first output unchanged — i.e. the first
pass did not splice together a new role marker, fence pair, or tag, did not
leave a long newline run, and truncation did not expose edge whitespace.  (The
unrestricted idempotence claimed by the spec fails, see
`sanitize_user_input_not_idempotent`.) -/
theorem sanitize_user_input_idempotent_of_pass_fixed (x : String)
    (h1 : removeRoleMarkers (sanitize_user_input x).toList =
      (sanitize_user_input x).toList)
    (h2 : removeCodeFences (sanitize_user_input x).toList =
      (sanitize_user_input x).toList)
    (h3 : removeTags (sanitize_user_input x).toList = (sanitize_user_input x).toList)
    (h4 : collapseNewlines (sanitize_user_input x).toList =
      (sanitize_user_input x).toList)
    (h5 : pyStrip (sanitize_user_input x).toList = (sanitize_user_input x).toList) :
    sanitize_user_input (sanitize_user_input x) = sanitize_user_input x := by
  have hlen : (sanitize_user_input x).length ≤ 4096 := sanitize_user_input_length_le x
  by_cases h0 : sanitize_user_input x = ""
  · rw [h0]; rfl
  · conv_lhs => rw [sanitize_user_input]
    rw [if_neg h0]
    simp only [h1, h2, h3, h4, h5]
    rw [if_neg (by
      intro hgt
      have : (sanitize_user_input x).toList.length = (sanitize_user_input x).length := rfl
      omega)]
    cases sanitize_user_input x
    rfl

/-- Witness for `sanitize_user_input_idempotent_of_pass_fixed` at the concrete
input `"Hello world"`. -/
theorem sanitize_user_input_idempotent_witness :
    sanitize_user_input (sanitize_user_input "Hello world") =
      sanitize_user_input "Hello world" :=
  sanitize_user_input_idempotent_of_pass_fixed "Hello world"
    (by decide) (by decide) (by decide) (by decide) (by decide)

/-- C1: the routing decision out of the Evaluate step.  At the failing input
`score = 0.5, threshold = 0.75, iteration = 5 = max_iterations` — the exact
state of the repository's own unit test
`test_routes_to_end_when_max_iterations_reached`, which expects the terminal
`"__end__"` — `route_after_evaluate` instead routes to `"plan"`: the exhaustion
case `iteration ≥ max_iterations` with `score < threshold` *advances to Plan*
rather than aborting.  Moreover the function has no terminal branch at all:
every state routes to `"plan"` or `"translate"`. -/
theorem route_after_evaluate_no_abort_branch :
    route_after_evaluate
      { score := some (1/2), threshold := some (3/4),
        iteration := some 5, max_iterations := some 5 } = "plan" ∧
    ∀ st : AgentState,
      route_after_evaluate st = "plan" ∨ route_after_evaluate st = "translate" := by
  constructor
  · simp only [route_after_evaluate, Option.getD_some]
    norm_num
  · intro st
    simp only [route_after_evaluate]
    split
    · left; rfl
    · right; rfl

/-! ## JSON values and Python primitives

The external text generator returns raw text that the nodes feed to
`json.loads`.  The raw text is abstracted by its parse outcome: an `LLMText`
is `none` when `json.loads` would raise `JSONDecodeError` (unparsable text,
including the empty string substituted for a falsy `response.content`), and
`some j` when it parses to the JSON value `j`. -/

/-- JSON values as produced by `json.loads`. -/
inductive PyJson where
  | null
  | bool (b : Bool)
  | num (q : ℚ)
  | str (s : String)
  | arr (xs : List PyJson)
  | obj (fields : List (String × PyJson))
  deriving Repr

/-- The parse outcome of the raw LLM response text (see the section header). -/
abbrev LLMText := Option PyJson

/-- `json.loads(response_text.strip())`. -/
def jsonLoads : LLMText → Except PyErr PyJson
  | none => .error .jsonDecodeError
  | some j => .ok j

/-- Python `v[key]`: `KeyError` on a dict without the key, `TypeError` on a
non-dict value. -/
def pyGetItem : PyJson → String → Except PyErr PyJson
  | .obj fields, k =>
    match fields.find? (fun p => p.1 = k) with
    | some p => .ok p.2
    | none => .error (.keyError k)
  | _, _ => .error .typeError

/-- Python `v.get(key, default)`: `AttributeError` on a non-dict value. -/
def pyGet : PyJson → String → PyJson → Except PyErr PyJson
  | .obj fields, k, dflt =>
    .ok (((fields.find? (fun p => p.1 = k)).map Prod.snd).getD dflt)
  | _, _, _ => .error .attributeError

/-- Python truthiness `bool(v)` of a JSON value. -/
def pyTruthy : PyJson → Bool
  | .null => false
  | .bool b => b
  | .num q => if q = 0 then false else true
  | .str s => if s = "" then false else true
  | .arr [] => false
  | .arr (_ :: _) => true
  | .obj [] => false
  | .obj (_ :: _) => true

/-- Digit run to a natural number. -/
def digitsToNat (l : List Char) : ℕ :=
  l.foldl (fun n c => 10 * n + (c.toNat - 48)) 0

/-- A decimal numeral accepted by Python's `float(str)`: optional surrounding
whitespace, optional sign, digits with an optional fractional part.  (The
rarer accepted forms — scientific notation, `inf`, `nan`, underscores — are
outside what this development exercises.) -/
def parseDecimal? (s : String) : Option ℚ :=
  let t := pyStrip s.toList
  let signed : ℚ × List Char :=
    match t with
    | '-' :: rest => (-1, rest)
    | '+' :: rest => (1, rest)
    | _ => (1, t)
  let sign := signed.1
  let intPart := signed.2.takeWhile Char.isDigit
  let rest := signed.2.dropWhile Char.isDigit
  match rest with
  | [] => if intPart = [] then none else some (sign * (digitsToNat intPart : ℚ))
  | '.' :: frac =>
    if frac.all Char.isDigit ∧ ¬(intPart = [] ∧ frac = []) then
      some (sign * ((digitsToNat intPart : ℚ) +
        (digitsToNat frac : ℚ) / (10 : ℚ) ^ frac.length))
    else none
  | _ => none

/-- Python `float(v)` on a JSON value: numbers and booleans convert, numeric
strings parse, everything else raises. -/
def pyFloat : PyJson → Except PyErr ℚ
  | .num q => .ok q
  | .bool b => .ok (if b then 1 else 0)
  | .str s =>
    match parseDecimal? s with
    | some q => .ok q
    | none => .error (.valueError ("could not convert string to float: " ++ s))
  | .null => .error .typeError
  | .arr _ => .error .typeError
  | .obj _ => .error .typeError

/-- Python `str(v)` of a JSON value.  Only the string case is exercised by the
theorems below; the remaining cases are canonical renderings standing in for
Python's `repr`-style output. -/
def pyStr : PyJson → String
  | .str s => s
  | .bool true => "True"
  | .bool false => "False"
  | .null => "None"
  | .num q => toString q
  | .arr _ => "<list>"
  | .obj _ => "<dict>"

/-! ## Evaluate node (`src/agent/nodes/evaluate.py`) -/

/-- The parsed evaluation: score normalized to `[0, 1]`, feedback text. -/
structure EvalParsed where
  score : ℚ
  feedback : String
  deriving Repr, DecidableEq

/-- `_parse_evaluation_response` (`src/agent/nodes/evaluate.py`, lines 21–34):
JSON-parse the response, normalize the score by dividing by 10, coerce the
feedback with `str`.  The `"score"` lookup and conversion happen before the
`"feedback"` lookup, as in the Python dict literal. -/
def parse_evaluation_response (resp : LLMText) : Except PyErr EvalParsed := do
  let parsed ← jsonLoads resp
  let sv ← pyGetItem parsed "score"
  let s ← pyFloat sv
  let fv ← pyGetItem parsed "feedback"
  pure { score := s / 10, feedback := pyStr fv }

/-- The data interpolated into the exhaustion diagnostic `error_message`
(`"Translation quality threshold (...) not met after ... iterations. ..."`);
the formatted text is abstracted to the values it interpolates. -/
structure ExhaustionMsg where
  threshold : ℚ
  max_iterations : ℕ
  score : ℚ
  deriving Repr, DecidableEq

/-- The dict returned by `evaluate_node`.  The early-exit return omits the
`error_message` key entirely, which is modelled by `none` (no diagnostic). -/
structure EvalUpdate where
  score : ℚ
  feedback : String
  iteration : ℕ
  error_message : Option ExhaustionMsg := none
  deriving Repr, DecidableEq

/-- The evaluate node up to its (potential) external call. -/
inductive EvalStep where
  | done (update : EvalUpdate)
  | callLLM (original_text translated_text : String)
  deriving Repr, DecidableEq

/-- `evaluate_node` up to the external call (`src/agent/nodes/evaluate.py`,
lines 52–78): the iteration counter is incremented unconditionally at entry,
and an empty `translated_text` short-circuits with the fixed feedback and no
LLM call. -/
def evaluate_node_step (st : AgentState) : EvalStep :=
  let input_text := st.input_text.getD ""
  let translated_text := st.translated_text.getD ""
  let current_iteration := st.iteration.getD 0
  let new_iteration := current_iteration + 1
  if translated_text = "" then
    .done { score := 0, feedback := "No translation provided.",
            iteration := new_iteration, error_message := none }
  else
    .callLLM input_text translated_text

/-- `evaluate_node` after the external call (`src/agent/nodes/evaluate.py`,
lines 80–111): a `json.JSONDecodeError` degrades to the fixed score-0
fallback; any other exception is re-raised by the `except Exception: raise`
handler; finally the exhaustion diagnostic is attached when the new iteration
count has reached `max_iterations` with the score still below threshold. -/
def evaluate_node_resume (st : AgentState) (resp : LLMText) : Except PyErr EvalUpdate :=
  let new_iteration := st.iteration.getD 0 + 1
  let max_iterations := st.max_iterations.getD 5
  let threshold := st.threshold.getD (3/4)
  let finish : ℚ → String → Except PyErr EvalUpdate := fun score feedback =>
    .ok { score := score, feedback := feedback, iteration := new_iteration,
          error_message :=
            if new_iteration ≥ max_iterations ∧ score < threshold then
              some { threshold := threshold, max_iterations := max_iterations,
                     score := score }
            else none }
  match parse_evaluation_response resp with
  | .ok r => finish r.score r.feedback
  | .error .jsonDecodeError => finish 0 "Evaluation parsing failed. Please re-translate."
  | .error e => .error e

/-- `evaluate_node` as a whole: the external evaluator's response is consulted
only when the entry code did not short-circuit. -/
def evaluate_node (st : AgentState) (resp : LLMText) : Except PyErr EvalUpdate :=
  match evaluate_node_step st with
  | .done u => .ok u
  | .callLLM _ _ => evaluate_node_resume st resp

/-! ## Translate node (`src/agent/nodes/translate.py`, `src/agent/prompts/translate.py`) -/

/-- `TRANSLATE_FEEDBACK_SECTION` (`src/agent/prompts/translate.py`), with the
two format fields substituted. -/
def TRANSLATE_FEEDBACK_SECTION (feedback previous_translation : String) : String :=
  "Your previous translation attempt was reviewed. Please address this feedback:\n" ++
    feedback ++ "\n\nPrevious translation:\n" ++ previous_translation ++ "\n\n"

/-- `TRANSLATE_USER_PROMPT_TEMPLATE` (`src/agent/prompts/translate.py`), with
the two format fields substituted. -/
def TRANSLATE_USER_PROMPT_TEMPLATE (feedback_section text : String) : String :=
  feedback_section ++ ("Text to translate:\n" ++ text)

/-- `_build_user_prompt` (`src/agent/nodes/translate.py`, lines 24–39): the
feedback section is included only when both `feedback` and
`previous_translation` are truthy (non-empty). -/
def build_user_prompt (text feedback previous_translation : String) : String :=
  let feedback_section :=
    if feedback ≠ "" ∧ previous_translation ≠ "" then
      TRANSLATE_FEEDBACK_SECTION feedback previous_translation
    else ""
  TRANSLATE_USER_PROMPT_TEMPLATE feedback_section text

/-- The translate node up to its (potential) external call. -/
inductive TranslateStep where
  | done (translated_text : String)
  | callLLM (user_prompt : String)
  deriving Repr, DecidableEq

/-- `translate_node` up to the external call (`src/agent/nodes/translate.py`,
lines 42–70): an empty raw input, or an input sanitized to empty,
short-circuits to an empty translation with no LLM call. -/
def translate_node_step (st : AgentState) : TranslateStep :=
  let input_text := st.input_text.getD ""
  let feedback := st.feedback.getD ""
  let previous_translation := st.translated_text.getD ""
  if input_text = "" then .done ""
  else
    let sanitized_input := sanitize_user_input input_text
    if sanitized_input = "" then .done ""
    else .callLLM (build_user_prompt sanitized_input feedback previous_translation)

/-! ### Theorems for C3, C4, C9 -/

/-- C4: on empty input the pipeline short-circuits without any external call:
Translate immediately returns `translated_text = ""`, and Evaluate on an empty
`translated_text` immediately returns `score = 0`,
`feedback = "No translation provided."`, with the iteration counter
incremented by one — the increment happens unconditionally at entry, before
the early exit. -/
theorem empty_input_short_circuits (st st' : AgentState)
    (hin : st.input_text.getD "" = "")
    (htr : st'.translated_text.getD "" = "") :
    translate_node_step st = .done "" ∧
    evaluate_node_step st' = .done
      { score := 0, feedback := "No translation provided.",
        iteration := st'.iteration.getD 0 + 1, error_message := none } := by
  constructor
  · simp [translate_node_step, hin]
  · simp [evaluate_node_step, htr]

/-- Witness for `empty_input_short_circuits` on the initial state of the
spec's scenario (`input = ""`, no prior translation, iteration absent → 1). -/
theorem empty_input_short_circuits_witness :
    translate_node_step {} = .done "" ∧
    evaluate_node_step {} = .done
      { score := 0, feedback := "No translation provided.",
        iteration := 1, error_message := none } :=
  empty_input_short_circuits {} {} rfl rfl

/-- C3 counterexample: a *valid-JSON* evaluation response that merely lacks
the `"score"` field is not degraded to the score-0 fallback: the subscript
`parsed["score"]` raises `KeyError`, which the node's `except Exception:
raise` handler re-raises, so the exception propagates out of the Evaluate
step. -/
theorem evaluate_node_missing_score_propagates :
    evaluate_node { translated_text := some "Shalom" }
      (some (.obj [("feedback", .str "missing score")])) =
      .error (.keyError "score") := by rfl

/-- C3 (amended): only a response that fails JSON decoding is degraded to
`score = 0` with the fixed fallback feedback `"Evaluation parsing failed.
Please re-translate."` and no exception; a parseable response with a missing
field or a score `float()` rejects re-raises instead (see
`evaluate_node_missing_score_propagates`). -/
theorem evaluate_node_unparsable_json_degrades (st : AgentState)
    (h : st.translated_text.getD "" ≠ "") :
    evaluate_node st none =
      .ok { score := 0, feedback := "Evaluation parsing failed. Please re-translate.",
            iteration := st.iteration.getD 0 + 1,
            error_message :=
              if st.iteration.getD 0 + 1 ≥ st.max_iterations.getD 5 ∧
                  (0 : ℚ) < st.threshold.getD (3/4) then
                some { threshold := st.threshold.getD (3/4),
                       max_iterations := st.max_iterations.getD 5, score := 0 }
              else none } := by
  simp only [evaluate_node, evaluate_node_step, evaluate_node_resume, h,
    parse_evaluation_response, jsonLoads, if_neg h]
  rfl

/-- Witness for `evaluate_node_unparsable_json_degrades` at a concrete state
(first iteration, default limits): the unparsable response yields the fallback
with no diagnostic. -/
theorem evaluate_node_unparsable_json_degrades_witness :
    evaluate_node
      { translated_text := some "Shalom", iteration := some 0,
        max_iterations := some 5, threshold := some (3/4) } none =
      .ok { score := 0, feedback := "Evaluation parsing failed. Please re-translate.",
            iteration := 1, error_message := none } := by
  rw [evaluate_node_unparsable_json_degrades _ (by decide)]
  norm_num

/-- C9: the translate prompt includes the feedback section exactly when both
`feedback` and `previous_translation` are non-empty; when either is missing
the prompt is the bare template, with the section omitted entirely. -/
theorem build_user_prompt_feedback_section_iff (text feedback previous_translation : String) :
    (feedback ≠ "" ∧ previous_translation ≠ "" →
      build_user_prompt text feedback previous_translation =
        TRANSLATE_FEEDBACK_SECTION feedback previous_translation ++
          ("Text to translate:\n" ++ text)) ∧
    ((feedback = "" ∨ previous_translation = "") →
      build_user_prompt text feedback previous_translation =
        "Text to translate:\n" ++ text) := by
  constructor
  · intro h
    simp [build_user_prompt, TRANSLATE_USER_PROMPT_TEMPLATE, h.1, h.2]
  · intro h
    have : ¬(feedback ≠ "" ∧ previous_translation ≠ "") := by tauto
    simp only [build_user_prompt, TRANSLATE_USER_PROMPT_TEMPLATE, if_neg this]
    rfl

/-- Witness for `build_user_prompt_feedback_section_iff`: with feedback and a
previous translation present the section is included; with feedback alone it
is dropped. -/
theorem build_user_prompt_feedback_section_witness :
    build_user_prompt "T" "F" "P" =
      TRANSLATE_FEEDBACK_SECTION "F" "P" ++ ("Text to translate:\n" ++ "T") ∧
    build_user_prompt "T" "F" "" = "Text to translate:\n" ++ "T" :=
  ⟨(build_user_prompt_feedback_section_iff "T" "F" "P").1 (by decide),
   (build_user_prompt_feedback_section_iff "T" "F" "").2 (by decide)⟩

/-! ## Plan node (`src/agent/nodes/plan.py`) -/

/-- The six valid crime types (the `CrimeType` enum,
`src/agent/nodes/plan.py`, lines 24–32). -/
def crimeTypes : List String :=
  ["rock_throwing", "molotov_cocktail", "ramming", "stabbing", "shooting", "theft"]

/-- Python `CrimeType(value)`: enum lookup by value; exactly the six member
strings succeed, every other value raises `ValueError`. -/
def crimeType? : PyJson → Option String
  | .str s => if s ∈ crimeTypes then some s else none
  | _ => none

/-- The message of the `ValueError` raised for an invalid crime value
(`src/agent/nodes/plan.py`, lines 70–74); the bracketed list is Python's
rendering of `[ct.value for ct in CrimeType]`. -/
def invalidCrimeMsg (crime_value : PyJson) : String :=
  "Invalid crime type: " ++ pyStr crime_value ++
    ". Must be one of: ['rock_throwing', 'molotov_cocktail', 'ramming', 'stabbing', 'shooting', 'theft']"

/-- The dict returned by `_parse_plan_response`: the not-relevant shape with
the raw `reason` value, or the relevant shape with the validated fields. -/
inductive PlanParsed where
  | notRelevant (reason : PyJson)
  | relevant (location : String) (crime : String) (requires_email_alert : Bool)
  deriving Repr

/-- `_parse_plan_response` (`src/agent/nodes/plan.py`, lines 45–81): a falsy
`relevant` short-circuits with the reason; otherwise the crime value must be
a valid `CrimeType` or a `ValueError` is raised. -/
def parse_plan_response (resp : LLMText) : Except PyErr PlanParsed := do
  let parsed ← jsonLoads resp
  if pyTruthy (← pyGet parsed "relevant" (.bool false)) = false then
    return .notRelevant (← pyGet parsed "reason" (.str "Event not relevant"))
  else
    let crime_value ← pyGet parsed "crime" (.str "")
    match crimeType? crime_value with
    | none => throw (.valueError (invalidCrimeMsg crime_value))
    | some crime_type =>
      return .relevant (pyStr (← pyGet parsed "location" (.str ""))) crime_type
        (pyTruthy (← pyGet parsed "requires_email_alert" (.bool false)))

/-- The incident payload built by `_build_incident_data`
(`src/agent/nodes/plan.py`, lines 84–100): location and crime. -/
structure PlanIncident where
  location : String
  crime : String
  deriving Repr, DecidableEq

/-- The dicts returned by `plan_node`: the skip shape sets
`skip_processing = True`, clears `incident_data` and `requires_email_alert`
and carries a reason; the relevant shape (which leaves `skip_processing`
unset) carries the incident data, the alert flag and the fixed reason. -/
inductive PlanUpdate where
  | skip (plan_reason : PyJson)
  | proceed (incident_data : PlanIncident) (requires_email_alert : Bool)
      (plan_reason : String)
  deriving Repr

/-- The plan node up to its (potential) external call. -/
inductive PlanStep where
  | done (update : PlanUpdate)
  | callLLM (translated_text : String)
  deriving Repr

/-- `plan_node` up to the external call (`src/agent/nodes/plan.py`, lines
103–139): empty translated text short-circuits to a skip update with no LLM
call. -/
def plan_node_step (st : AgentState) : PlanStep :=
  let translated_text := st.translated_text.getD ""
  if translated_text = "" then
    .done (.skip (.str "No translated text provided"))
  else .callLLM translated_text

/-- `plan_node` after the external call (`src/agent/nodes/plan.py`, lines
141–195): `JSONDecodeError` and `ValueError` degrade to skip updates carrying
the failure reason, any other exception re-raises (`except Exception:
raise`); a not-relevant parse skips with its reason; a relevant parse builds
the incident data. -/
def plan_node_resume (resp : LLMText) : Except PyErr PlanUpdate :=
  match parse_plan_response resp with
  | .error .jsonDecodeError => .ok (.skip (.str "Failed to parse LLM response"))
  | .error (.valueError msg) => .ok (.skip (.str msg))
  | .error e => .error e
  | .ok (.notRelevant reason) => .ok (.skip reason)
  | .ok (.relevant location crime requires_email) =>
    .ok (.proceed { location := location, crime := crime } requires_email
      "Relevant incident in Judea & Samaria")

/-- C7: a classification response marked relevant whose crime value is a
string outside the six enumerated crimes is rejected by validation and
degraded to a skip update that carries the `ValueError` message as the
reason — the Plan step never propagates an exception for it.  (The first
conjunct records that Plan consults the generator exactly when translated
text is present.) -/
theorem plan_node_invalid_crime_degrades :
    (∀ st : AgentState, st.translated_text.getD "" ≠ "" →
      plan_node_step st = .callLLM (st.translated_text.getD "")) ∧
    ∀ (fields : List (String × PyJson)) (s : String),
      pyTruthy (((fields.find? (fun p => p.1 = "relevant")).map Prod.snd).getD
        (.bool false)) = true →
      ((fields.find? (fun p => p.1 = "crime")).map Prod.snd).getD (.str "") = .str s →
      s ∉ crimeTypes →
      plan_node_resume (some (.obj fields)) =
        .ok (.skip (.str (invalidCrimeMsg (.str s)))) := by
  constructor
  · intro st h
    simp [plan_node_step, h]
  · intro fields s hrel hcrime hs
    simp only [plan_node_resume, parse_plan_response, jsonLoads, pyGet, bind, pure,
      Except.bind, Except.pure, hrel, hcrime]
    simp [crimeType?, hs]

/-- Witness for `plan_node_invalid_crime_degrades`: a state with translated
text goes to the LLM, and a relevant response with the out-of-range crime
`"arson"` degrades to the skip update with the validation message. -/
theorem plan_node_invalid_crime_degrades_witness :
    plan_node_step { translated_text := some "A report" } = .callLLM "A report" ∧
    plan_node_resume (some (.obj [("relevant", .bool true), ("crime", .str "arson")])) =
      .ok (.skip (.str (invalidCrimeMsg (.str "arson")))) :=
  ⟨plan_node_invalid_crime_degrades.1 { translated_text := some "A report" } (by decide),
   plan_node_invalid_crime_degrades.2 [("relevant", .bool true), ("crime", .str "arson")]
     "arson" rfl rfl (by decide)⟩

/-! ## DynamoDB executor (`src/agent/tools/push_to_dynamodb.py`) -/

/-- The incident payload handed to the executors (the `IncidentData` dict):
location, crime, and a Unix timestamp in seconds. -/
structure IncidentData where
  location : String
  crime : String
  created_at : ℕ
  deriving Repr, DecidableEq

/-- `_generate_incident_id` (`src/agent/tools/push_to_dynamodb.py`, lines
27–37): the SHA-256 hexdigest of the key string
`"location:crime:created_at"`.  The digest is an external deterministic
function; it is modelled by the (injective) key string it hashes, which has
exactly the properties the surrounding code relies on — determinism and
distinctness for distinct keys. -/
def generate_incident_id (incident : IncidentData) : String :=
  incident.location ++ ":" ++ incident.crime ++ ":" ++ toString incident.created_at

/-- Gregorian civil date (year, month) from days since 1970-01-01 — the
standard `civil_from_days` computation performed by
`datetime.fromtimestamp(·, tz=UTC)`, restricted to non-negative timestamps. -/
def civilFromDays (z0 : ℕ) : ℕ × ℕ :=
  let z := z0 + 719468
  let era := z / 146097
  let doe := z % 146097
  let yoe := (doe - doe / 1460 + doe / 36524 - doe / 146096) / 365
  let y := yoe + era * 400
  let doy := doe - (365 * yoe + yoe / 4 - yoe / 100)
  let mp := (5 * doy + 2) / 153
  let m := if mp < 10 then mp + 3 else mp - 9
  (if m ≤ 2 then y + 1 else y, m)

/-- Two-digit zero padding, as in `strftime("%m")`. -/
def pad2 (n : ℕ) : String := if n < 10 then "0" ++ toString n else toString n

/-- `_extract_year_month` (`src/agent/tools/push_to_dynamodb.py`, lines
40–50): the UTC `"YYYY-MM"` string of a Unix timestamp in seconds. -/
def extract_year_month (unix_timestamp : ℕ) : String :=
  let ym := civilFromDays (unix_timestamp / 86400)
  toString ym.1 ++ "-" ++ pad2 ym.2

-- Sanity anchors for the calendar computation (values cross-checked against
-- `datetime`).
example : extract_year_month 0 = "1970-01" := by decide
example : extract_year_month 951825600 = "2000-02" := by decide
example : extract_year_month 1738368000 = "2025-02" := by decide
example : extract_year_month 1767225600 = "2026-01" := by decide

/-- A stored incident entry (the `incident_entry` dict,
`src/agent/tools/push_to_dynamodb.py`, lines 159–164). -/
structure IncidentEntry where
  incident_id : String
  location : String
  crime : String
  created_at : ℕ
  deriving Repr, DecidableEq

/-- The DynamoDB table, keyed by `year_month`; each item holds the
partition's `incidents` list. -/
abbrev DDBTable := List (String × List IncidentEntry)

/-- `table.get_item(Key=...).get("Item")`. -/
def getItem (t : DDBTable) (key : String) : Option (List IncidentEntry) :=
  (t.find? (fun p => p.1 = key)).map Prod.snd

/-- `table.put_item(Item=...)`: replace the item with the given key, or
insert it. -/
def putItem (t : DDBTable) (key : String) (incidents : List IncidentEntry) : DDBTable :=
  match t with
  | [] => [(key, incidents)]
  | (k, v) :: rest =>
    if k = key then (key, incidents) :: rest else (k, v) :: putItem rest key incidents

/-- `table.update_item(..., UpdateExpression="SET incidents =
list_append(incidents, :new_incident)")`: append to the existing item's
list. -/
def updateItemAppend (t : DDBTable) (key : String) (new : List IncidentEntry) :
    DDBTable :=
  t.map (fun p => if p.1 = key then (p.1, p.2 ++ new) else p)

/-- The process environment variables the executors read. -/
structure Env where
  DYNAMODB_TABLE_NAME : Option String := none
  SES_SENDER_EMAIL : Option String := none
  SES_RECIPIENT_EMAIL : Option String := none
  deriving Repr, DecidableEq

/-! ### Retry wrappers

`_execute_with_retry` appears in both executor modules
(`src/agent/tools/push_to_dynamodb.py`, lines 70–120, and
`src/agent/tools/send_email.py`, lines 124–175); the two copies differ only
in the `ServiceUnavailable` arm — the DynamoDB copy re-raises, the SES copy
returns `None`.  The wrapped operation is an oracle giving the outcome of
each numbered invocation attempt. -/

/-- `MAX_RETRIES` (both executor modules). -/
def MAX_RETRIES : ℕ := 3

/-- `RETRY_BASE_DELAY_SECONDS` (both executor modules). -/
def RETRY_BASE_DELAY_SECONDS : ℚ := 1

/-- Outcome of one invocation of the wrapped operation: a normal return or a
`botocore` `ClientError` carrying its error code. -/
inductive OpOutcome (α : Type) where
  | ok (v : α)
  | clientError (code : String)
  deriving Repr, DecidableEq

/-- Observable behaviour of one run of a retry wrapper: the number of times
the operation was invoked and the `time.sleep` delays performed, in order. -/
structure RetryTrace where
  calls : ℕ
  sleeps : List ℚ
  deriving Repr, DecidableEq

/-- Result of the DynamoDB `_execute_with_retry`. -/
inductive DDBRetryResult (α : Type) where
  /-- The operation returned normally. -/
  | success (v : α)
  /-- `ServiceUnavailable`: re-raised inside the loop, without retry. -/
  | raisedServiceUnavailable
  /-- `raise last_exception` after the loop exhausted all attempts. -/
  | raisedExhausted (code : String)
  deriving Repr, DecidableEq

/-- The `for attempt in range(1, MAX_RETRIES + 1)` loop of the DynamoDB
`_execute_with_retry`, over the list of remaining attempt numbers. -/
def ddbRetryGo {α : Type} (op : ℕ → OpOutcome α) (lastCode : Option String)
    (calls : ℕ) (sleeps : List ℚ) : List ℕ → DDBRetryResult α × RetryTrace
  | [] => (.raisedExhausted (lastCode.getD ""), ⟨calls, sleeps⟩)
  | attempt :: rest =>
    match op attempt with
    | .ok v => (.success v, ⟨calls + 1, sleeps⟩)
    | .clientError code =>
      if code = "ServiceUnavailable" then
        (.raisedServiceUnavailable, ⟨calls + 1, sleeps⟩)
      else
        ddbRetryGo op (some code) (calls + 1)
          (sleeps ++ [RETRY_BASE_DELAY_SECONDS * 2 ^ (attempt - 1)]) rest

/-- `_execute_with_retry` from `src/agent/tools/push_to_dynamodb.py`. -/
def execute_with_retry_ddb {α : Type} (op : ℕ → OpOutcome α) :
    DDBRetryResult α × RetryTrace :=
  ddbRetryGo op none 0 [] (List.range' 1 MAX_RETRIES)

/-- Result of the SES `_execute_with_retry`. -/
inductive SESRetryResult (α : Type) where
  /-- The operation returned normally. -/
  | success (v : α)
  /-- `ServiceUnavailable`: `return None` immediately, without retry. -/
  | unavailable
  /-- `raise last_exception` after the loop exhausted all attempts. -/
  | raisedExhausted (code : String)
  deriving Repr, DecidableEq

/-- The attempt loop of the SES `_execute_with_retry`. -/
def sesRetryGo {α : Type} (op : ℕ → OpOutcome α) (lastCode : Option String)
    (calls : ℕ) (sleeps : List ℚ) : List ℕ → SESRetryResult α × RetryTrace
  | [] => (.raisedExhausted (lastCode.getD ""), ⟨calls, sleeps⟩)
  | attempt :: rest =>
    match op attempt with
    | .ok v => (.success v, ⟨calls + 1, sleeps⟩)
    | .clientError code =>
      if code = "ServiceUnavailable" then
        (.unavailable, ⟨calls + 1, sleeps⟩)
      else
        sesRetryGo op (some code) (calls + 1)
          (sleeps ++ [RETRY_BASE_DELAY_SECONDS * 2 ^ (attempt - 1)]) rest

/-- `_execute_with_retry` from `src/agent/tools/send_email.py`. -/
def execute_with_retry_ses {α : Type} (op : ℕ → OpOutcome α) :
    SESRetryResult α × RetryTrace :=
  sesRetryGo op none 0 [] (List.range' 1 MAX_RETRIES)

/-! ### The persist executor -/

/-- The store operations a `push_to_dynamodb` run performs, in order. -/
inductive StoreOp where
  | get (key : String)
  | update (key : String)
  | put (key : String)
  deriving Repr, DecidableEq

/-- The result dicts returned by `push_to_dynamodb`: the duplicate early
return (lines 184–189) or the plain ok return (lines 222–224). -/
inductive PushOutcome where
  | duplicate (year_month incident_id : String)
  | stored
  deriving Repr, DecidableEq

/-- `push_to_dynamodb` (`src/agent/tools/push_to_dynamodb.py`, lines
123–224), with the store passed explicitly.  `_get_dynamodb_table` (lines
53–67) raises `KeyError` when `DYNAMODB_TABLE_NAME` is absent — before any
store operation.  The individual store calls are modelled as succeeding on
their first attempt, under which each `_execute_with_retry` wrapper is the
identity (the wrapper itself is analysed via `execute_with_retry_ddb`).
Returns the result, the new store, and the trace of store operations
performed. -/
def push_to_dynamodb (env : Env) (t : DDBTable) (incident : IncidentData) :
    Except PyErr PushOutcome × DDBTable × List StoreOp :=
  let year_month := extract_year_month incident.created_at
  let incident_id := generate_incident_id incident
  match env.DYNAMODB_TABLE_NAME with
  | none => (.error (.keyError "DYNAMODB_TABLE_NAME"), t, [])
  | some _ =>
    let incident_entry : IncidentEntry :=
      { incident_id := incident_id, location := incident.location,
        crime := incident.crime, created_at := incident.created_at }
    match getItem t year_month with
    | some existing_incidents =>
      if incident_id ∈ existing_incidents.map (fun e => e.incident_id) then
        (.ok (.duplicate year_month incident_id), t, [.get year_month])
      else
        (.ok .stored, updateItemAppend t year_month [incident_entry],
          [.get year_month, .update year_month])
    | none =>
      (.ok .stored, putItem t year_month [incident_entry],
        [.get year_month, .put year_month])

/-! ### The alert executor -/

/-- The result dict returned by `send_email`: `alert_complete` is always
true; `message_id` is set on success and `error` carries a failure that was
absorbed rather than raised. -/
structure SendEmailResult where
  alert_complete : Bool
  message_id : Option String := none
  error : Option String := none
  deriving Repr, DecidableEq

/-- `send_email` (`src/agent/tools/send_email.py`, lines 178–254).  The SES
`send_email` call is the oracle `op`, whose success value is the returned
`MessageId`; the HTML and plain-text body builders (lines 52–121) are pure
string formatting with no control-flow effect and are not modelled (the spec
places email rendering out of scope), and the `str(e)` in the exhausted-retry
message is abstracted to the error code.  Missing sender or recipient
configuration returns the non-raising error result before any SES
interaction. -/
def send_email (env : Env) (op : ℕ → OpOutcome String) (incident : IncidentData) :
    SendEmailResult × RetryTrace :=
  let _ := incident
  let sender_email := env.SES_SENDER_EMAIL.getD ""
  let recipient_email := env.SES_RECIPIENT_EMAIL.getD ""
  if sender_email = "" ∨ recipient_email = "" then
    ({ alert_complete := true,
       error := some "SES_SENDER_EMAIL or SES_RECIPIENT_EMAIL not configured" },
     ⟨0, []⟩)
  else
    match execute_with_retry_ses op with
    | (.success message_id, tr) =>
      ({ alert_complete := true, message_id := some message_id }, tr)
    | (.unavailable, tr) =>
      ({ alert_complete := true, error := some "SES service unavailable" }, tr)
    | (.raisedExhausted code, tr) =>
      ({ alert_complete := true,
         error := some ("Failed to send email after 3 retries: " ++ code) }, tr)

/-! ### Store lemmas and the C2 idempotence theorem -/

lemma getItem_cons (k' : String) (v' : List IncidentEntry) (rest : DDBTable)
    (k : String) :
    getItem ((k', v') :: rest) k = if k' = k then some v' else getItem rest k := by
  by_cases h : k' = k <;> simp [getItem, List.find?_cons, h]

lemma getItem_putItem_self (t : DDBTable) (k : String) (v : List IncidentEntry) :
    getItem (putItem t k v) k = some v := by
  induction t with
  | nil => simp [putItem, getItem, List.find?]
  | cons p rest ih =>
    obtain ⟨k', v'⟩ := p
    by_cases h : k' = k
    · simp [putItem, h, getItem_cons]
    · simp [putItem, h, getItem_cons, ih]

lemma getItem_updateItemAppend_self (t : DDBTable) (k : String)
    (v new : List IncidentEntry) (h : getItem t k = some v) :
    getItem (updateItemAppend t k new) k = some (v ++ new) := by
  induction t with
  | nil => simp [getItem, List.find?] at h
  | cons p rest ih =>
    obtain ⟨k', v'⟩ := p
    by_cases hk : k' = k
    · rw [getItem_cons, if_pos hk] at h
      cases h
      simp [updateItemAppend, hk, getItem_cons]
    · rw [getItem_cons, if_neg hk] at h
      simpa [updateItemAppend, hk, getItem_cons] using ih h

/-- C2: persisting the same `(location, crime, created_at)` twice yields
exactly one stored entry.  Starting from any store in which the incident's id
is not yet present in its month partition, the first call stores the entry
(appending to the partition or creating it), leaving exactly one entry with
that incident id in the partition; the second call performs only the
partition read, returns the duplicate result, and leaves the store
unchanged. -/
theorem push_to_dynamodb_idempotent (env : Env) (n : String) (t : DDBTable)
    (incident : IncidentData) (henv : env.DYNAMODB_TABLE_NAME = some n)
    (hfresh : generate_incident_id incident ∉
      ((getItem t (extract_year_month incident.created_at)).getD []).map
        (fun e => e.incident_id)) :
    (push_to_dynamodb env t incident).1 = .ok .stored ∧
    ((getItem (push_to_dynamodb env t incident).2.1
        (extract_year_month incident.created_at)).getD []).countP
      (fun e => e.incident_id = generate_incident_id incident) = 1 ∧
    push_to_dynamodb env (push_to_dynamodb env t incident).2.1 incident =
      (.ok (.duplicate (extract_year_month incident.created_at)
          (generate_incident_id incident)),
        (push_to_dynamodb env t incident).2.1,
        [.get (extract_year_month incident.created_at)]) := by
  set ym := extract_year_month incident.created_at with hym
  set iid := generate_incident_id incident with hiid
  set entry : IncidentEntry :=
    { incident_id := iid, location := incident.location,
      crime := incident.crime, created_at := incident.created_at } with hentry
  cases hget : getItem t ym with
  | none =>
    have hpush : push_to_dynamodb env t incident =
        (.ok .stored, putItem t ym [entry], [.get ym, .put ym]) := by
      rw [push_to_dynamodb, henv]
      simp only [← hym, ← hiid, ← hentry, hget]
    have h1 : getItem (putItem t ym [entry]) ym = some [entry] :=
      getItem_putItem_self t ym [entry]
    refine ⟨by rw [hpush], ?_, ?_⟩
    · rw [hpush]
      simp [h1, hentry, List.countP_cons]
    · rw [hpush]
      rw [push_to_dynamodb, henv]
      simp only [← hym, ← hiid, ← hentry, h1]
      simp [hentry]
  | some existing =>
    have hmem : iid ∉ existing.map (fun e => e.incident_id) := by
      rw [hget] at hfresh
      simpa using hfresh
    have hpush : push_to_dynamodb env t incident =
        (.ok .stored, updateItemAppend t ym [entry],
          [.get ym, .update ym]) := by
      rw [push_to_dynamodb, henv]
      simp only [← hym, ← hiid, ← hentry, hget]
      rw [if_neg hmem]
    have h1 : getItem (updateItemAppend t ym [entry]) ym = some (existing ++ [entry]) :=
      getItem_updateItemAppend_self t ym existing [entry] hget
    have hcount : existing.countP (fun e => e.incident_id = iid) = 0 := by
      rw [List.countP_eq_zero]
      intro e he hc
      exact hmem (List.mem_map.mpr ⟨e, he, by simpa using hc⟩)
    refine ⟨by rw [hpush], ?_, ?_⟩
    · rw [hpush]
      simp [h1, List.countP_append, hcount, hentry, List.countP_cons]
    · rw [hpush]
      rw [push_to_dynamodb, henv]
      simp only [← hym, ← hiid, ← hentry, h1]
      simp [hentry]

/-- Witness for `push_to_dynamodb_idempotent`: a concrete incident pushed
twice into an initially empty store. -/
theorem push_to_dynamodb_idempotent_witness :
    (push_to_dynamodb { DYNAMODB_TABLE_NAME := some "incidents" } []
      { location := "Jerusalem", crime := "stabbing", created_at := 1767225600 }).1 =
      .ok .stored ∧
    ((getItem (push_to_dynamodb { DYNAMODB_TABLE_NAME := some "incidents" } []
        { location := "Jerusalem", crime := "stabbing",
          created_at := 1767225600 }).2.1
        (extract_year_month 1767225600)).getD []).countP
      (fun e => e.incident_id = generate_incident_id
        { location := "Jerusalem", crime := "stabbing", created_at := 1767225600 }) = 1 ∧
    push_to_dynamodb { DYNAMODB_TABLE_NAME := some "incidents" }
      (push_to_dynamodb { DYNAMODB_TABLE_NAME := some "incidents" } []
        { location := "Jerusalem", crime := "stabbing",
          created_at := 1767225600 }).2.1
      { location := "Jerusalem", crime := "stabbing", created_at := 1767225600 } =
      (.ok (.duplicate (extract_year_month 1767225600)
          (generate_incident_id
            { location := "Jerusalem", crime := "stabbing",
              created_at := 1767225600 })),
        (push_to_dynamodb { DYNAMODB_TABLE_NAME := some "incidents" } []
          { location := "Jerusalem", crime := "stabbing",
            created_at := 1767225600 }).2.1,
        [.get (extract_year_month 1767225600)]) :=
  push_to_dynamodb_idempotent { DYNAMODB_TABLE_NAME := some "incidents" }
    "incidents" []
    { location := "Jerusalem", crime := "stabbing", created_at := 1767225600 }
    rfl (by decide)

/-! ### C5: shared retry behaviour of the two executors -/

/-- A transient error outcome: a `ClientError` whose code is not
`"ServiceUnavailable"`. -/
def IsTransientErr {α : Type} : OpOutcome α → Prop
  | .ok _ => False
  | .clientError code => code ≠ "ServiceUnavailable"

/-- C5: both executors' retry wrappers invoke the operation at most 3 times;
every backoff delay they sleep is `RETRY_BASE_DELAY_SECONDS * 2 ^ (attempt - 1)`
(the k-th recorded sleep is for attempt `k + 1`); and on a
`ServiceUnavailable` error there is no retry — after `k - 1` transient
failures and a `ServiceUnavailable` at attempt `k`, the DynamoDB wrapper
raises immediately and the SES wrapper returns the unavailable sentinel
without raising, both having made exactly `k` calls. -/
theorem execute_with_retry_shared_behaviour (α : Type) (op : ℕ → OpOutcome α) :
    ((execute_with_retry_ddb op).2.calls ≤ 3 ∧
      (execute_with_retry_ses op).2.calls ≤ 3) ∧
    ((execute_with_retry_ddb op).2.sleeps =
      (List.range (execute_with_retry_ddb op).2.sleeps.length).map
        (fun k => RETRY_BASE_DELAY_SECONDS * 2 ^ k) ∧
     (execute_with_retry_ses op).2.sleeps =
      (List.range (execute_with_retry_ses op).2.sleeps.length).map
        (fun k => RETRY_BASE_DELAY_SECONDS * 2 ^ k)) ∧
    (∀ k, 1 ≤ k → k ≤ 3 → op k = .clientError "ServiceUnavailable" →
      (∀ j, 1 ≤ j → j < k → IsTransientErr (op j)) →
      execute_with_retry_ddb op =
        (.raisedServiceUnavailable,
          ⟨k, (List.range (k - 1)).map (fun i => RETRY_BASE_DELAY_SECONDS * 2 ^ i)⟩) ∧
      execute_with_retry_ses op =
        (.unavailable,
          ⟨k, (List.range (k - 1)).map (fun i => RETRY_BASE_DELAY_SECONDS * 2 ^ i)⟩)) := by
  have hr : List.range' 1 MAX_RETRIES = [1, 2, 3] := rfl
  simp only [execute_with_retry_ddb, execute_with_retry_ses, hr]
  rcases h1 : op 1 with v1 | c1
  · -- attempt 1 succeeds
    simp only [ddbRetryGo, sesRetryGo, h1]
    refine ⟨⟨by norm_num, by norm_num⟩, ⟨by simp, by simp⟩, ?_⟩
    intro k hk1 hk3 hSU htrans
    interval_cases k
    · rw [h1] at hSU; simp at hSU
    · have ht := htrans 1 (by norm_num) (by norm_num)
      rw [h1] at ht; simp [IsTransientErr] at ht
    · have ht := htrans 1 (by norm_num) (by norm_num)
      rw [h1] at ht; simp [IsTransientErr] at ht
  · by_cases hc1 : c1 = "ServiceUnavailable"
    · -- ServiceUnavailable at attempt 1
      subst hc1
      simp only [ddbRetryGo, sesRetryGo, h1, if_pos rfl]
      refine ⟨⟨by norm_num, by norm_num⟩, ⟨by simp, by simp⟩, ?_⟩
      intro k hk1 hk3 hSU htrans
      interval_cases k
      · simp
      · have ht := htrans 1 (by norm_num) (by norm_num)
        rw [h1] at ht; simp [IsTransientErr] at ht
      · have ht := htrans 1 (by norm_num) (by norm_num)
        rw [h1] at ht; simp [IsTransientErr] at ht
    · -- transient at attempt 1
      rcases h2 : op 2 with v2 | c2
      · simp only [ddbRetryGo, sesRetryGo, h1, if_neg hc1, h2]
        refine ⟨⟨by norm_num, by norm_num⟩,
          ⟨by simp [List.range_succ], by simp [List.range_succ]⟩, ?_⟩
        intro k hk1 hk3 hSU htrans
        interval_cases k
        · rw [h1] at hSU
          exact absurd (by injection hSU) hc1
        · rw [h2] at hSU; simp at hSU
        · have ht := htrans 2 (by norm_num) (by norm_num)
          rw [h2] at ht; simp [IsTransientErr] at ht
      · by_cases hc2 : c2 = "ServiceUnavailable"
        · -- ServiceUnavailable at attempt 2
          subst hc2
          simp only [ddbRetryGo, sesRetryGo, h1, if_neg hc1, h2, if_pos rfl]
          refine ⟨⟨by norm_num, by norm_num⟩,
            ⟨by simp [List.range_succ], by simp [List.range_succ]⟩, ?_⟩
          intro k hk1 hk3 hSU htrans
          interval_cases k
          · rw [h1] at hSU
            exact absurd (by injection hSU) hc1
          · simp [List.range_succ]
          · have ht := htrans 2 (by norm_num) (by norm_num)
            rw [h2] at ht; simp [IsTransientErr] at ht
        · -- transient at attempt 2
          rcases h3 : op 3 with v3 | c3
          · simp only [ddbRetryGo, sesRetryGo, h1, if_neg hc1, h2, if_neg hc2, h3]
            refine ⟨⟨by norm_num, by norm_num⟩,
              ⟨by simp [List.range_succ], by simp [List.range_succ]⟩, ?_⟩
            intro k hk1 hk3 hSU htrans
            interval_cases k
            · rw [h1] at hSU
              exact absurd (by injection hSU) hc1
            · rw [h2] at hSU
              exact absurd (by injection hSU) hc2
            · rw [h3] at hSU; simp at hSU
          · by_cases hc3 : c3 = "ServiceUnavailable"
            · -- ServiceUnavailable at attempt 3
              subst hc3
              simp only [ddbRetryGo, sesRetryGo, h1, if_neg hc1, h2, if_neg hc2, h3,
                if_pos rfl]
              refine ⟨⟨by norm_num, by norm_num⟩,
                ⟨by simp [List.range_succ], by simp [List.range_succ]⟩, ?_⟩
              intro k hk1 hk3 hSU htrans
              interval_cases k
              · rw [h1] at hSU
                exact absurd (by injection hSU) hc1
              · rw [h2] at hSU
                exact absurd (by injection hSU) hc2
              · simp [List.range_succ]
            · -- all three attempts transient: exhausted
              simp only [ddbRetryGo, sesRetryGo, h1, if_neg hc1, h2, if_neg hc2, h3,
                if_neg hc3]
              refine ⟨⟨by norm_num, by norm_num⟩,
                ⟨by simp [List.range_succ], by simp [List.range_succ]⟩, ?_⟩
              intro k hk1 hk3 hSU htrans
              interval_cases k
              · rw [h1] at hSU
                exact absurd (by injection hSU) hc1
              · rw [h2] at hSU
                exact absurd (by injection hSU) hc2
              · rw [h3] at hSU
                exact absurd (by injection hSU) hc3

/-- Witness for `execute_with_retry_shared_behaviour`: an operation that is
transient on attempt 1 and `ServiceUnavailable` on attempt 2 stops after
exactly two calls in both wrappers, with a single backoff sleep. -/
theorem execute_with_retry_shared_behaviour_witness :
    execute_with_retry_ddb
        (fun n => if n = 1 then OpOutcome.clientError (α := Unit) "Throttling"
          else .clientError "ServiceUnavailable") =
      (.raisedServiceUnavailable,
        ⟨2, (List.range 1).map (fun i => RETRY_BASE_DELAY_SECONDS * 2 ^ i)⟩) ∧
    execute_with_retry_ses
        (fun n => if n = 1 then OpOutcome.clientError (α := Unit) "Throttling"
          else .clientError "ServiceUnavailable") =
      (.unavailable,
        ⟨2, (List.range 1).map (fun i => RETRY_BASE_DELAY_SECONDS * 2 ^ i)⟩) :=
  (execute_with_retry_shared_behaviour Unit
    (fun n => if n = 1 then .clientError "Throttling"
      else .clientError "ServiceUnavailable")).2.2 2
    (by norm_num) (by norm_num) (by norm_num)
    (by
      intro j hj1 hj2
      have : j = 1 := by omega
      subst this
      simp [IsTransientErr])

/-! ### C10: configuration failures -/

/-- C10 counterexample: a missing mail configuration is *not* fatal in the
alert executor.  With neither sender nor recipient configured, `send_email`
raises nothing: it returns a normal, completed-alert-shaped result
(`alert_complete = true`) that merely carries the error message, and it makes
zero SES calls. -/
theorem send_email_missing_config_does_not_raise :
    send_email {} (fun _ => .ok "mid")
      { location := "Jerusalem", crime := "stabbing", created_at := 1767225600 } =
      ({ alert_complete := true, message_id := none,
         error := some "SES_SENDER_EMAIL or SES_RECIPIENT_EMAIL not configured" },
       ⟨0, []⟩) := by rfl

/-- C10 (amended): a missing configuration is detected immediately, with no
retry and no external interaction, in both executors — but it is *fatal* only
in the persist executor, which raises `KeyError` before any store operation;
the alert executor instead returns, without raising, a result whose `error`
field carries the failure (see `send_email_missing_config_does_not_raise`). -/
theorem missing_config_immediate_no_retry (env : Env) (t : DDBTable)
    (incident : IncidentData) (op : ℕ → OpOutcome String)
    (hd : env.DYNAMODB_TABLE_NAME = none)
    (hs : env.SES_SENDER_EMAIL.getD "" = "" ∨ env.SES_RECIPIENT_EMAIL.getD "" = "") :
    push_to_dynamodb env t incident =
      (.error (.keyError "DYNAMODB_TABLE_NAME"), t, []) ∧
    send_email env op incident =
      ({ alert_complete := true, message_id := none,
         error := some "SES_SENDER_EMAIL or SES_RECIPIENT_EMAIL not configured" },
       ⟨0, []⟩) := by
  constructor
  · simp only [push_to_dynamodb, hd]
  · simp only [send_email]
    rw [if_pos hs]

/-- Witness for `missing_config_immediate_no_retry`: an environment with only
the sender address configured. -/
theorem missing_config_immediate_no_retry_witness :
    push_to_dynamodb { SES_SENDER_EMAIL := some "alerts@example.com" } []
      { location := "Hebron", crime := "ramming", created_at := 1738368000 } =
      (.error (.keyError "DYNAMODB_TABLE_NAME"), [], []) ∧
    send_email { SES_SENDER_EMAIL := some "alerts@example.com" }
      (fun _ => .ok "mid")
      { location := "Hebron", crime := "ramming", created_at := 1738368000 } =
      ({ alert_complete := true, message_id := none,
         error := some "SES_SENDER_EMAIL or SES_RECIPIENT_EMAIL not configured" },
       ⟨0, []⟩) :=
  missing_config_immediate_no_retry { SES_SENDER_EMAIL := some "alerts@example.com" }
    [] { location := "Hebron", crime := "ramming", created_at := 1738368000 }
    (fun _ => .ok "mid") rfl (Or.inr rfl)

/-! ## Worker node (`src/agent/nodes/worker.py`) -/

/-- A tool call issued by the worker's LLM.  The argument payload is passed
straight through to the tool implementations, whose external side effects are
abstracted by `raises`: `some e` models the implementation raising the
exception rendered as `e` (e.g. a `ClientError` that survived its retries),
`none` a normal return. -/
structure ToolCall where
  name : String
  raises : Option String := none
  deriving Repr, DecidableEq

/-- The content of the `ToolMessage` recorded for one tool call: the
implementation's own result dict on success, or the error dict the worker
builds. -/
inductive ToolMsg where
  /-- The tool implementation returned normally; its result dict is recorded. -/
  | ok (name : String)
  /-- The implementation raised; the worker caught it and recorded the
  error dict with the rendered exception. -/
  | execError (name : String) (e : String)
  /-- The error dict recorded for a name that is neither `send_email` nor
  `push_to_dynamodb`. -/
  | unknownTool (name : String)
  deriving Repr, DecidableEq

/-- Execute one tool call (`src/agent/nodes/worker.py`, lines 203–244): a
known tool runs inside `try`/`except`, so a raise is caught and recorded as
an error result, and only a normal return appends the tool's name to
`actions_taken`; an unknown name records an error result without raising. -/
def execToolCall (c : ToolCall) : List String × ToolMsg :=
  if c.name = "send_email" ∨ c.name = "push_to_dynamodb" then
    match c.raises with
    | none => ([c.name], .ok c.name)
    | some e => ([], .execError c.name e)
  else ([], .unknownTool c.name)

/-- Execute one response's tool calls in order (`for tool_call in
tool_calls`): every call is processed and an exception from one call never
prevents the following calls from executing. -/
def execToolCalls : List ToolCall → List String × List ToolMsg
  | [] => ([], [])
  | c :: cs =>
    let r := execToolCall c
    let rest := execToolCalls cs
    (r.1 ++ rest.1, r.2 :: rest.2)

/-- Did this call succeed (known tool, no exception)?  Exactly these calls
contribute to `actions_taken`. -/
def toolCallSucceeds (c : ToolCall) : Bool :=
  if (c.name = "send_email" ∨ c.name = "push_to_dynamodb") ∧ c.raises = none then
    true
  else false

lemma execToolCalls_spec (calls : List ToolCall) :
    execToolCalls calls =
      ((calls.filter toolCallSucceeds).map (fun c => c.name),
        calls.map (fun c => (execToolCall c).2)) := by
  induction calls with
  | nil => rfl
  | cons c cs ih =>
    simp only [execToolCalls, ih, List.filter_cons, List.map_cons]
    by_cases h : (c.name = "send_email" ∨ c.name = "push_to_dynamodb") ∧ c.raises = none
    · obtain ⟨h1, h2⟩ := h
      simp [toolCallSucceeds, execToolCall, h1, h2]
    · have hb : toolCallSucceeds c = false := by simp [toolCallSucceeds, h]
      rw [hb]
      simp only [Bool.false_eq_true, if_false]
      rcases Decidable.em (c.name = "send_email" ∨ c.name = "push_to_dynamodb") with hn | hn
      · have h2 : c.raises ≠ none := fun hr => h ⟨hn, hr⟩
        obtain ⟨e, he⟩ := Option.ne_none_iff_exists'.mp h2
        simp [execToolCall, hn, he]
      · simp [execToolCall, hn]

/-- One LLM response per iteration of the worker's ReAct loop: `none` models
`llm_with_tools.ainvoke` raising, `some calls` the tool calls of the
response (possibly empty). -/
abbrev WorkerScript := ℕ → Option (List ToolCall)

/-- The `for iteration in range(max_iterations)` loop
(`src/agent/nodes/worker.py`, lines 180–246): an LLM invocation failure
returns the fixed failure output (discarding the accumulated record), an
empty tool-call list breaks the loop, and otherwise every call of the
response is executed before the next iteration. -/
def workerLoop (script : WorkerScript) : ℕ → ℕ → Option (List String × List ToolMsg)
  | _, 0 => some ([], [])
  | i, fuel + 1 =>
    match script i with
    | none => none
    | some [] => some ([], [])
    | some calls =>
      let r := execToolCalls calls
      match workerLoop script (i + 1) fuel with
      | none => none
      | some rest => some (r.1 ++ rest.1, r.2 ++ rest.2)

/-- The state fields the worker node reads. -/
structure WorkerState where
  incident_data : Option IncidentData := none
  plan_reason : Option String := none
  worker_max_iterations : Option ℕ := none
  deriving Repr, DecidableEq

/-- The dict returned by `worker_node`, together with the observable
execution record: the names in `actions_taken` and the recorded tool
messages. -/
structure WorkerOut where
  worker_output : String
  should_end : Bool
  actions_taken : List String
  log : List ToolMsg
  deriving Repr, DecidableEq

/-- `worker_node` (`src/agent/nodes/worker.py`, lines 142–257): with no
incident data it executes nothing and reports the skip summary; otherwise it
runs the ReAct loop and summarizes the successful actions. -/
def worker_node (st : WorkerState) (script : WorkerScript) : WorkerOut :=
  match st.incident_data with
  | none =>
    { worker_output :=
        "Skipped processing: " ++ st.plan_reason.getD "No processing required",
      should_end := true, actions_taken := [], log := [] }
  | some _ =>
    match workerLoop script 0 (st.worker_max_iterations.getD 10) with
    | none =>
      { worker_output := "Worker failed: LLM error", should_end := true,
        actions_taken := [], log := [] }
    | some (actions_taken, log) =>
      { worker_output :=
          if actions_taken = [] then "No actions taken"
          else "Executed: " ++ String.intercalate ", " actions_taken,
        should_end := true, actions_taken := actions_taken, log := log }

lemma workerLoop_ne_none (script : WorkerScript) (h : ∀ i, script i ≠ none) :
    ∀ fuel i, workerLoop script i fuel ≠ none := by
  intro fuel
  induction fuel with
  | zero => intro i; simp [workerLoop]
  | succ n ih =>
    intro i
    simp only [workerLoop]
    cases hs : script i with
    | none => exact absurd hs (h i)
    | some calls =>
      cases calls with
      | nil => simp
      | cons c cs =>
        cases hrec : workerLoop script (i + 1) n with
        | none => exact absurd hrec (ih (i + 1))
        | some rest => simp

lemma workerLoop_tail (calls : List ToolCall) :
    ∀ (fuel i : ℕ), i ≠ 0 →
      workerLoop (fun j => if j = 0 then some calls else some []) i fuel =
        some ([], []) := by
  intro fuel i hi
  cases fuel with
  | zero => rfl
  | succ f => simp [workerLoop, hi]

/-- C6: (i) with no incident data the worker executes nothing and reports
the `"Skipped processing: "` summary with the plan's reason; (ii) whenever
the loop completes, the summary is `"Executed: "` with the comma-joined
action names when any action ran, and `"No actions taken"` when none did;
(iii) every tool call of a consumed response — including the calls *after* a
failing one — is executed and gets its own recorded outcome, a failing call
merely being absent from `actions_taken`: one action's failure never aborts
the subsequent actions. -/
theorem worker_node_failure_tolerant_summary :
    (∀ (st : WorkerState) (script : WorkerScript), st.incident_data = none →
      worker_node st script =
        { worker_output :=
            "Skipped processing: " ++ st.plan_reason.getD "No processing required",
          should_end := true, actions_taken := [], log := [] }) ∧
    (∀ (st : WorkerState) (script : WorkerScript) (d : IncidentData),
      st.incident_data = some d → (∀ i, script i ≠ none) →
      ((worker_node st script).actions_taken = [] →
        (worker_node st script).worker_output = "No actions taken") ∧
      ((worker_node st script).actions_taken ≠ [] →
        (worker_node st script).worker_output =
          "Executed: " ++
            String.intercalate ", " (worker_node st script).actions_taken)) ∧
    (∀ (st : WorkerState) (d : IncidentData) (calls : List ToolCall),
      st.incident_data = some d → 1 ≤ st.worker_max_iterations.getD 10 →
      (worker_node st (fun i => if i = 0 then some calls else some [])).actions_taken =
        (calls.filter toolCallSucceeds).map (fun c => c.name) ∧
      (worker_node st (fun i => if i = 0 then some calls else some [])).log =
        calls.map (fun c => (execToolCall c).2)) := by
  refine ⟨?_, ?_, ?_⟩
  · intro st script h
    simp [worker_node, h]
  · intro st script d hd hs
    cases hl : workerLoop script 0 (st.worker_max_iterations.getD 10) with
    | none => exact absurd hl (workerLoop_ne_none script hs _ 0)
    | some r =>
      obtain ⟨a, l⟩ := r
      by_cases ha : a = []
      · constructor
        · intro _
          simp [worker_node, hd, hl, ha]
        · intro hne
          simp [worker_node, hd, hl, ha] at hne
      · constructor
        · intro he
          simp [worker_node, hd, hl, ha] at he
        · intro _
          simp [worker_node, hd, hl, ha]
  · intro st d calls hd hfuel
    obtain ⟨f, hf⟩ : ∃ f, st.worker_max_iterations.getD 10 = f + 1 :=
      ⟨st.worker_max_iterations.getD 10 - 1, by omega⟩
    cases calls with
    | nil =>
      have hl : workerLoop (fun _ => some ([] : List ToolCall)) 0
          (st.worker_max_iterations.getD 10) = some ([], []) := by
        rw [hf]
        simp [workerLoop]
      simp [worker_node, hd, hl]
    | cons c cs =>
      have hl : workerLoop (fun j => if j = 0 then some (c :: cs) else some []) 0
          (st.worker_max_iterations.getD 10) =
          some (execToolCalls (c :: cs)) := by
        rw [hf]
        simp only [workerLoop, if_pos rfl]
        rw [workerLoop_tail (c :: cs) f 1 (by omega)]
        simp
      rw [execToolCalls_spec] at hl
      simp [worker_node, hd, hl]

/-- Witness for `worker_node_failure_tolerant_summary`: the skip scenario
with reason `"not in region"`, and a single response whose first tool call
(`send_email`) raises while the second (`push_to_dynamodb`) still executes
and is summarized. -/
theorem worker_node_failure_tolerant_summary_witness :
    worker_node { plan_reason := some "not in region" } (fun _ => some []) =
      { worker_output := "Skipped processing: not in region", should_end := true,
        actions_taken := [], log := [] } ∧
    (worker_node
        { incident_data :=
            some { location := "Jerusalem", crime := "stabbing", created_at := 0 } }
        (fun i => if i = 0 then
            some [{ name := "send_email", raises := some "boom" },
              { name := "push_to_dynamodb" }]
          else some [])).actions_taken = ["push_to_dynamodb"] ∧
    (worker_node
        { incident_data :=
            some { location := "Jerusalem", crime := "stabbing", created_at := 0 } }
        (fun i => if i = 0 then
            some [{ name := "send_email", raises := some "boom" },
              { name := "push_to_dynamodb" }]
          else some [])).log =
      [.execError "send_email" "boom", .ok "push_to_dynamodb"] ∧
    (worker_node
        { incident_data :=
            some { location := "Jerusalem", crime := "stabbing", created_at := 0 } }
        (fun i => if i = 0 then
            some [{ name := "send_email", raises := some "boom" },
              { name := "push_to_dynamodb" }]
          else some [])).worker_output = "Executed: push_to_dynamodb" := by
  have h1 := worker_node_failure_tolerant_summary.1
    { plan_reason := some "not in region" } (fun _ => some []) rfl
  have h3 := worker_node_failure_tolerant_summary.2.2
    { incident_data :=
        some { location := "Jerusalem", crime := "stabbing", created_at := 0 } }
    { location := "Jerusalem", crime := "stabbing", created_at := 0 }
    [{ name := "send_email", raises := some "boom" }, { name := "push_to_dynamodb" }]
    rfl (by norm_num)
  have h2 := worker_node_failure_tolerant_summary.2.1
    { incident_data :=
        some { location := "Jerusalem", crime := "stabbing", created_at := 0 } }
    (fun i => if i = 0 then
        some [{ name := "send_email", raises := some "boom" },
          { name := "push_to_dynamodb" }]
      else some [])
    { location := "Jerusalem", crime := "stabbing", created_at := 0 }
    rfl (by intro i; by_cases h : i = 0 <;> simp [h])
  have hact : (worker_node
      { incident_data :=
          some { location := "Jerusalem", crime := "stabbing", created_at := 0 } }
      (fun i => if i = 0 then
          some [{ name := "send_email", raises := some "boom" },
            { name := "push_to_dynamodb" }]
        else some [])).actions_taken = ["push_to_dynamodb"] := h3.1
  refine ⟨h1, hact, h3.2, ?_⟩
  have := h2.2 (by rw [hact]; simp)
  rw [hact] at this
  exact this

end TelegramAgent
